import Mathlib

/-!
Verification of the MovieAdvisor recommendation core.

This file gives a shallow embedding of the recommendation aggregation and
caching layer of the MovieAdvisor app and proves the specified properties
about it.  The embedded functions are translated from:

* `src/MovieRecommendationApp/src/utils/genreStorage.ts`
  (genre preference store: match score, completion status, add/remove),
* `src/MovieRecommendationApp/src/utils/simpleRecommendations.ts`
  (recommendation cache, merge/dedup, category assembly),
* `src/MovieRecommendationApp/src/screens/EditProfileScreen.tsx`
  (search result cache with bounded size and insertion-order eviction).

Modelling conventions: JavaScript numbers used for ratings, popularity and
scores are modelled as rationals (`ℚ`); timestamps (`Date.now()`) as `ℤ`
milliseconds; promise rejection as `Except Unit`; the module-level mutable
cache objects as an explicit state record threaded through the functions;
`Array.prototype.sort` (stable in the JS runtime) as `List.mergeSort` with
the comparator's ordering; a JS `Map` as an association list in insertion
order.  Each embedded function records in a `fetched` flag whether the
network branch was taken, so "no network call" is expressible.
-/

namespace MovieAdvisor

/-- Discriminator between movie and TV-series content items. -/
inductive MediaType where
  | movie : MediaType
  | tv : MediaType
deriving DecidableEq, Repr

/-- The fields of `Movie` / `TVShow` (src/types/index.ts) that the
recommendation core reads: upstream id, the media-type discriminator,
`vote_average`, `popularity` and the genre id list. -/
structure ContentItem where
  id : Int
  mediaType : MediaType
  vote_average : ℚ
  popularity : ℚ
  genre_ids : List Int
deriving DecidableEq, Repr

/-- A genre reference-table row (`Genre` in src/types/index.ts). -/
structure Genre where
  id : Int
  name : String
deriving DecidableEq, Repr

/-! ### Genre preference store (genreStorage.ts) -/

/-- `getGenrePreferences` (genreStorage.ts:12): reads the persisted list of
favorite genre ids; its catch-block returns `[]` when the underlying
storage read fails. -/
def getGenrePreferences (stored : Except Unit (List Int)) : List Int :=
  match stored with
  | Except.ok preferences => preferences
  | Except.error _ => []

/-- `addGenrePreference` (genreStorage.ts:36): read-modify-write that
appends `genreId` unless it is already present.  The function returns the
list that ends up persisted. -/
def addGenrePreference (currentGenres : List Int) (genreId : Int) : List Int :=
  if decide (genreId ∈ currentGenres) then currentGenres
  else currentGenres ++ [genreId]

/-- `getGenreMatchScore` (genreStorage.ts:120), pure core: 0 when either
list is empty, otherwise `0.7 * |matching|/|preferences| + 0.3 *
|matching|/|contentGenreIds|` where `matching` filters the content genres
that the preference list includes. -/
def getGenreMatchScore (preferences contentGenreIds : List Int) : ℚ :=
  if preferences.length = 0 ∨ contentGenreIds.length = 0 then 0
  else
    let matchingGenres := contentGenreIds.filter (fun gid => decide (gid ∈ preferences))
    let matchScore : ℚ := (matchingGenres.length : ℚ) / (preferences.length : ℚ)
    let genreRatio : ℚ := (matchingGenres.length : ℚ) / (contentGenreIds.length : ℚ)
    matchScore * 0.7 + genreRatio * 0.3

/-- The spec's formula for the match score (§4.1): `0.7 * (m / p) + 0.3 *
(m / g)` as a function of the intersection size `m`, the preference count
`p` and the item genre count `g`.  Used to compare the code against the
spec's wording. -/
def specMatchFormula (m p g : ℕ) : ℚ :=
  0.7 * (m : ℚ) / (p : ℚ) + 0.3 * (m : ℚ) / (g : ℚ)

/-- Result record of `getGenreCompletionStatus` (genreStorage.ts:205). -/
structure GenreCompletionStatus where
  isComplete : Bool
  missingGenres : List Genre
  coverage : ℚ
  recommendations : List String
deriving DecidableEq, Repr

/-- `getGenreCompletionStatus` (genreStorage.ts:205), pure core over the
stored preferences and the genre reference table: `isComplete` iff at
least 3 preferences, `coverage = min(length/3, 1)`, plus the missing-genre
list and advisory strings. -/
def getGenreCompletionStatus (preferences : List Int) (allGenres : List Genre) :
    GenreCompletionStatus :=
  let isComplete := decide (3 ≤ preferences.length)
  let coverage : ℚ := min ((preferences.length : ℚ) / 3) 1
  let missingGenres := allGenres.filter (fun g => !(decide (g.id ∈ preferences)))
  let recommendations : List String :=
    if preferences.length = 0 then
      ["Select at least 3 genres to get personalized recommendations"]
    else if preferences.length < 3 then
      ["Select " ++ toString (3 - preferences.length) ++ " more genres for better recommendations"]
    else if 5 ≤ preferences.length then
      ["Great! You have enough genre preferences for excellent personalization"]
    else []
  { isComplete := isComplete, missingGenres := missingGenres,
    coverage := coverage, recommendations := recommendations }

/-! ### Recommendation cache (simpleRecommendations.ts) -/

/-- The `GenreCache` record (simpleRecommendations.ts:19): merged movie and
TV pools, the last refresh timestamp and the genre fingerprint the entry
was computed for. -/
structure GenreCache where
  movies : List ContentItem
  tvShows : List ContentItem
  lastUpdate : Int
  userGenres : List Int
deriving DecidableEq, Repr

/-- The two module-level mutable cache objects (simpleRecommendations.ts:26
and :33) gathered into one explicit state record. -/
structure RecState where
  generalCache : GenreCache
  personalizedCache : GenreCache
deriving DecidableEq, Repr

/-- `CACHE_DURATION` (simpleRecommendations.ts:40): 5 minutes in ms. -/
def CACHE_DURATION : Int := 5 * 60 * 1000

/-- `genresMatch` (simpleRecommendations.ts:42): order-independent genre
set comparison (same length and every user genre contained in the cached
list).  Note: this helper is never called anywhere in the source. -/
def genresMatch (userGenres cachedGenres : List Int) : Bool :=
  if userGenres.length ≠ cachedGenres.length then false
  else userGenres.all (fun genre => decide (genre ∈ cachedGenres))

/-- `getCache` (simpleRecommendations.ts:47): selects the general cache for
an empty genre list and the personalized cache otherwise.  The stored
fingerprint is not consulted. -/
def getCache (userGenres : List Int) (st : RecState) : GenreCache :=
  if userGenres.length = 0 then st.generalCache else st.personalizedCache

/-- Writing the selected cache object back into the module state (models
the in-place mutation of `generalCache` / `personalizedCache`). -/
def setCache (userGenres : List Int) (c : GenreCache) (st : RecState) : RecState :=
  if userGenres.length = 0 then { st with generalCache := c }
  else { st with personalizedCache := c }

/-- `responses.forEach(r => all.push(...transform(r).results))`
(simpleRecommendations.ts:101): concatenate the result pages of the four
upstream calls in call order.  The field-wise `transformTMDb*` mappers
preserve order and drop nothing, so a page is modelled directly as the
transformed item list. -/
def mergePages (responses : List (List ContentItem)) : List ContentItem :=
  responses.foldl (fun acc r => acc ++ r) []

/-- The dedup step (simpleRecommendations.ts:109):
`all.filter((movie, index, self) => self.findIndex(m => m.id === movie.id) === index)`
— keep an element exactly when its index equals the index of the first
element with the same id. -/
def dedupById (self : List ContentItem) : List ContentItem :=
  (self.enum.filter
    (fun im => self.findIdx (fun m => decide (m.id = im.2.id)) == im.1)).map
    (fun im => im.2)

/-- Result of one `getMoviesFromAPI` / `getTVShowsFromAPI` call: the value
the promise resolves with (or the rejection), the updated module state,
and whether the network branch was taken. -/
structure FetchStep where
  result : Except Unit (List ContentItem)
  state : RecState
  fetched : Bool

/-- `getMoviesFromAPI` (simpleRecommendations.ts:55).  `fetch` is the joint
outcome of the `Promise.all` over the four upstream calls: either the four
transformed result pages in call order, or a rejection.  The cache-hit
test is exactly the source's `cache.movies.length > 0 && now -
cache.lastUpdate < CACHE_DURATION`; the catch-block returns
`cache.movies`. -/
def getMoviesFromAPI (now : Int) (userGenres : List Int)
    (fetch : Except Unit (List (List ContentItem))) (st : RecState) : FetchStep :=
  let cache := getCache userGenres st
  if 0 < cache.movies.length ∧ now - cache.lastUpdate < CACHE_DURATION then
    { result := Except.ok cache.movies, state := st, fetched := false }
  else
    match fetch with
    | Except.error _ =>
        { result := Except.ok cache.movies, state := st, fetched := true }
    | Except.ok responses =>
        let uniqueMovies := dedupById (mergePages responses)
        let cache2 := { cache with
          movies := uniqueMovies, lastUpdate := now, userGenres := userGenres }
        { result := Except.ok uniqueMovies,
          state := setCache userGenres cache2 st, fetched := true }

/-- `getTVShowsFromAPI` (simpleRecommendations.ts:124): same shape as the
movie variant, operating on the `tvShows` field of the selected cache. -/
def getTVShowsFromAPI (now : Int) (userGenres : List Int)
    (fetch : Except Unit (List (List ContentItem))) (st : RecState) : FetchStep :=
  let cache := getCache userGenres st
  if 0 < cache.tvShows.length ∧ now - cache.lastUpdate < CACHE_DURATION then
    { result := Except.ok cache.tvShows, state := st, fetched := false }
  else
    match fetch with
    | Except.error _ =>
        { result := Except.ok cache.tvShows, state := st, fetched := true }
    | Except.ok responses =>
        let uniqueTVShows := dedupById (mergePages responses)
        let cache2 := { cache with
          tvShows := uniqueTVShows, lastUpdate := now, userGenres := userGenres }
        { result := Except.ok uniqueTVShows,
          state := setCache userGenres cache2 st, fetched := true }

/-! ### Scoring and category assembly (simpleRecommendations.ts) -/

/-- A JS `array.sort((a, b) => key(b) - key(a))`: stable sort placing
larger keys first.  The runtime's sort is stable, so `List.mergeSort`
with the corresponding ordering is the faithful model. -/
def sortByDesc (key : ContentItem → ℚ) (l : List ContentItem) : List ContentItem :=
  l.mergeSort (fun a b => decide (key b ≤ key a))

/-- `scoreContent` (simpleRecommendations.ts:193): rating-only score when
no preferences, otherwise `0.7 * genreScore + 0.3 * rating/10` with
`genreScore = |matching| / max(|userGenres|, 1)`. -/
def scoreContent (item : ContentItem) (userGenres : List Int) : ℚ :=
  if userGenres.length = 0 then item.vote_average / 10
  else
    let itemGenres := item.genre_ids
    let matchingGenres := itemGenres.filter (fun genreId => decide (genreId ∈ userGenres))
    let genreScore : ℚ := (matchingGenres.length : ℚ) / (max userGenres.length 1 : ℚ)
    let ratingScore : ℚ := item.vote_average / 10
    genreScore * 0.7 + ratingScore * 0.3

/-- `getPersonalizedContent` (simpleRecommendations.ts:210): rating-sorted
prefix when no preferences, otherwise items sorted by `scoreContent`
descending, capped at `limit`. -/
def getPersonalizedContent (content : List ContentItem) (userGenres : List Int)
    (limit : Nat) : List ContentItem :=
  if userGenres.length = 0 then
    (sortByDesc (fun a => a.vote_average) content).take limit
  else
    (((content.map (fun item => (item, scoreContent item userGenres))).mergeSort
        (fun a b => decide (b.2 ≤ a.2))).map (fun p => p.1)).take limit

/-- `SimpleCategory` (simpleRecommendations.ts:12). -/
structure SimpleCategory where
  id : String
  title : String
  subtitle : Option String
  data : List ContentItem
deriving DecidableEq, Repr

/-- `getFallbackCategories` (simpleRecommendations.ts:231), as a function
of the two merged pools.  The source's `allMovies.sort(...)` mutates the
array in place, so the "Top Rated" sorts run on the already
popularity-sorted arrays; the `let` sequencing reproduces that. -/
def getFallbackCategories (allMovies allTVShows : List ContentItem) :
    List SimpleCategory :=
  let movies1 := sortByDesc (fun m => m.popularity) allMovies
  let popularMovies := movies1.take 20
  let movies2 := sortByDesc (fun m => m.vote_average) movies1
  let topRatedMovies := movies2.take 20
  let tv1 := sortByDesc (fun s => s.popularity) allTVShows
  let popularTV := tv1.take 20
  let tv2 := sortByDesc (fun s => s.vote_average) tv1
  let topRatedTV := tv2.take 20
  [ { id := "popular-movies", title := "Popular Movies", subtitle := none,
      data := popularMovies },
    { id := "top-rated-movies", title := "Top Rated Movies", subtitle := none,
      data := topRatedMovies },
    { id := "popular-tv", title := "Popular TV Shows", subtitle := none,
      data := popularTV },
    { id := "top-rated-tv", title := "Top Rated TV Shows", subtitle := none,
      data := topRatedTV } ]

/-- The `genreNames` record literal (simpleRecommendations.ts:291). -/
def genreNameTable : List (Int × String) :=
  [(28, "Action"), (12, "Adventure"), (16, "Animation"), (35, "Comedy"),
   (80, "Crime"), (99, "Documentary"), (18, "Drama"), (10751, "Family"),
   (14, "Fantasy"), (36, "History"), (27, "Horror"), (10402, "Music"),
   (9648, "Mystery"), (10749, "Romance"), (878, "Science Fiction"),
   (10770, "TV Movie"), (53, "Thriller"), (10752, "War"), (37, "Western")]

/-- `genreNames[genreId] || 'Genre ' + genreId`
(simpleRecommendations.ts:314). -/
def genreName (genreId : Int) : String :=
  match genreNameTable.lookup genreId with
  | some n => n
  | none => "Genre " ++ toString genreId

/-- The body of the `topGenres.forEach` loop
(simpleRecommendations.ts:313): build the "Best {GenreName}" category for
one genre id over the (by then popularity-sorted) combined pool, pushing
it only when its filtered content is non-empty. -/
def genreCategoryStep (sortedContent : List ContentItem)
    (acc : List SimpleCategory) (genreId : Int) : List SimpleCategory :=
  let gname := genreName genreId
  let genreContent :=
    (sortByDesc (fun c => c.vote_average)
      (sortedContent.filter (fun item => decide (genreId ∈ item.genre_ids)))).take 20
  if 0 < genreContent.length then
    acc ++ [{ id := "genre-" ++ toString genreId, title := "Best " ++ gname,
              subtitle := some ("Top-rated " ++ gname.toLower ++ " content"),
              data := genreContent }]
  else acc

/-- `getPersonalizedCategories` (simpleRecommendations.ts:263) as a
function of the two merged pools.  The "Trending Now" sort mutates
`allContent` in place in the source, so the later per-genre filters run
over the popularity-sorted array (`sortedContent` here). -/
def getPersonalizedCategories (userGenres : List Int)
    (allMovies allTVShows : List ContentItem) : List SimpleCategory :=
  let allContent := allMovies ++ allTVShows
  let forYouCat : SimpleCategory :=
    { id := "for-you", title := "For You",
      subtitle := some "Handpicked based on your preferences",
      data := getPersonalizedContent allContent userGenres 20 }
  let sortedContent := sortByDesc (fun c => c.popularity) allContent
  let trendingCat : SimpleCategory :=
    { id := "trending", title := "Trending Now",
      subtitle := some "Popular content in your favorite genres",
      data := sortedContent.take 20 }
  let topGenres := userGenres.take 2
  let genreCats := topGenres.foldl (genreCategoryStep sortedContent) []
  [forYouCat, trendingCat] ++ genreCats

/-- `hasUserPreferences` (simpleRecommendations.ts:333): at least 3 stored
preferences.  `getGenrePreferences` is total (its catch returns `[]`), so
the surrounding catch-block is unreachable. -/
def hasUserPreferences (stored : Except Unit (List Int)) : Bool :=
  decide (3 ≤ (getGenrePreferences stored).length)

/-- The body of `getFallbackCategories` including its two awaited cache
calls (general fingerprint), with promise rejections propagated. -/
def runFallbackCategories (now : Int)
    (movieFetch tvFetch : Except Unit (List (List ContentItem))) (st : RecState) :
    Except Unit (List SimpleCategory) × RecState :=
  let ms := getMoviesFromAPI now [] movieFetch st
  match ms.result with
  | Except.error e => (Except.error e, ms.state)
  | Except.ok allMovies =>
    let ts := getTVShowsFromAPI now [] tvFetch ms.state
    match ts.result with
    | Except.error e => (Except.error e, ts.state)
    | Except.ok allTVShows =>
      (Except.ok (getFallbackCategories allMovies allTVShows), ts.state)

/-- The body of `getPersonalizedCategories` including its two awaited
cache calls (personalized fingerprint). -/
def runPersonalizedCategories (now : Int) (userGenres : List Int)
    (movieFetch tvFetch : Except Unit (List (List ContentItem))) (st : RecState) :
    Except Unit (List SimpleCategory) × RecState :=
  let ms := getMoviesFromAPI now userGenres movieFetch st
  match ms.result with
  | Except.error e => (Except.error e, ms.state)
  | Except.ok allMovies =>
    let ts := getTVShowsFromAPI now userGenres tvFetch ms.state
    match ts.result with
    | Except.error e => (Except.error e, ts.state)
    | Except.ok allTVShows =>
      (Except.ok (getPersonalizedCategories userGenres allMovies allTVShows), ts.state)

/-- `getSimpleRecommendations` (simpleRecommendations.ts:343): dispatch on
`hasUserPreferences`; the catch-block retries the fallback path (whose own
rejection would propagate out of the catch). -/
def getSimpleRecommendations (now : Int) (stored : Except Unit (List Int))
    (movieFetch tvFetch : Except Unit (List (List ContentItem))) (st : RecState) :
    Except Unit (List SimpleCategory) × RecState :=
  if hasUserPreferences stored then
    let userGenres := getGenrePreferences stored
    match runPersonalizedCategories now userGenres movieFetch tvFetch st with
    | (Except.ok cats, st2) => (Except.ok cats, st2)
    | (Except.error _, st2) => runFallbackCategories now movieFetch tvFetch st2
  else
    match runFallbackCategories now movieFetch tvFetch st with
    | (Except.ok cats, st2) => (Except.ok cats, st2)
    | (Except.error _, st2) => runFallbackCategories now movieFetch tvFetch st2

/-- The empty cache record both module-level caches start from. -/
def emptyGenreCache : GenreCache :=
  { movies := [], tvShows := [], lastUpdate := 0, userGenres := [] }

/-- Initial module state: both caches empty (nothing cached). -/
def initState : RecState :=
  { generalCache := emptyGenreCache, personalizedCache := emptyGenreCache }

/-! ### Search cache (EditProfileScreen.tsx, `performSearch`) -/

/-- A JS `Map` as an association list in insertion order.  `map.set(k, v)`
overwrites in place when the key exists (keeping its position) and appends
otherwise. -/
def jsMapSet {α : Type} (m : List (String × α)) (k : String) (v : α) :
    List (String × α) :=
  if m.any (fun kv => kv.1 == k) then
    m.map (fun kv => if kv.1 == k then (k, v) else kv)
  else m ++ [(k, v)]

/-- `map.delete(k)`: remove the entry for `k` (keys of a JS `Map` are
unique, so filtering all matches is equivalent). -/
def jsMapDelete {α : Type} (m : List (String × α)) (k : String) :
    List (String × α) :=
  m.filter (fun kv => kv.1 != k)

/-- The composite search-cache key
(EditProfileScreen.tsx:760): lower-cased query, `_`, and the genre filter
ids sorted by JS default sort (string comparison) and comma-joined. -/
def buildCacheKey (query : String) (selectedGenreFilters : List Int) : String :=
  query.toLower ++ "_" ++
    String.intercalate ","
      ((selectedGenreFilters.mergeSort
        (fun a b => !(decide (toString b < toString a)))).map toString)

/-- The cache-update functional update passed to `setSearchCache`
(EditProfileScreen.tsx:834): copy, insert under `cacheKey`, and when the
size exceeds 10 delete the first key in iteration (insertion) order; the
`if (firstKey)` truthiness guard skips the deletion for an empty-string
key. -/
def searchCacheInsert {α : Type} (prev : List (String × α)) (cacheKey : String)
    (results : α) : List (String × α) :=
  let newCache := jsMapSet prev cacheKey results
  if 10 < newCache.length then
    match newCache.head? with
    | some kv => if kv.1 ≠ "" then jsMapDelete newCache kv.1 else newCache
    | none => newCache
  else newCache

/-! ### Helper lemmas: sorting -/

/-- The comparator model of `sort((a, b) => key(b) - key(a))` yields a list
that is pairwise non-increasing in `key`. -/
theorem sortByDesc_pairwise (key : ContentItem → ℚ) (l : List ContentItem) :
    (sortByDesc key l).Pairwise (fun a b => key b ≤ key a) := by
  have h := @List.sorted_mergeSort ContentItem
    (fun a b : ContentItem => decide (key b ≤ key a))
    (fun a b c hab hbc => by
      simp only [decide_eq_true_eq] at *
      exact le_trans hbc hab)
    (fun a b => by
      simp only [Bool.or_eq_true, decide_eq_true_eq]
      exact le_total (key b) (key a))
    l
  exact h.imp (by simp only [decide_eq_true_eq]; exact fun h => h)

/-- Sorting permutes, hence preserves length. -/
theorem sortByDesc_length (key : ContentItem → ℚ) (l : List ContentItem) :
    (sortByDesc key l).length = l.length :=
  (List.mergeSort_perm l _).length_eq

/-- Sorting permutes, hence preserves membership. -/
theorem sortByDesc_mem {key : ContentItem → ℚ} {l : List ContentItem}
    {x : ContentItem} : x ∈ sortByDesc key l ↔ x ∈ l :=
  (List.mergeSort_perm l _).mem_iff

/-! ### Helper lemmas: the dedup step -/

/-- `find?` returns the element at the index `findIdx` finds (and `none`
exactly when `findIdx` runs off the end). -/
theorem find?_eq_getElem?_findIdx {α : Type} (p : α → Bool) (l : List α) :
    l.find? p = l[l.findIdx p]? := by
  induction l with
  | nil => rfl
  | cons a l ih =>
    by_cases h : p a
    · simp [List.find?_cons, h, List.findIdx_cons]
    · simp [List.find?_cons, h, List.findIdx_cons, ih]

/-- Membership in the deduplicated list: exactly the elements sitting at
the first index carrying their id. -/
theorem mem_dedupById {x : ContentItem} {self : List ContentItem} :
    x ∈ dedupById self ↔
      ∃ i : ℕ, self[i]? = some x ∧
        self.findIdx (fun m => decide (m.id = x.id)) = i := by
  unfold dedupById
  simp only [List.mem_map, List.mem_filter, List.mem_enum_iff_getElem?]
  constructor
  · rintro ⟨⟨i, y⟩, ⟨hget, hq⟩, rfl⟩
    refine ⟨i, hget, ?_⟩
    simpa using hq
  · rintro ⟨i, hget, hidx⟩
    exact ⟨(i, x), ⟨hget, by simpa using hidx⟩, rfl⟩

/-- The deduplicated list carries pairwise distinct ids. -/
theorem dedupById_pairwise (self : List ContentItem) :
    (dedupById self).Pairwise (fun a b => a.id ≠ b.id) := by
  unfold dedupById
  rw [List.pairwise_map]
  have henum : (self.enum).Pairwise (fun p q => p.1 ≠ q.1) := by
    have h1 : ((self.enum).map Prod.fst).Nodup := by
      rw [List.enum_map_fst]; exact List.nodup_range _
    exact List.pairwise_map.mp h1
  refine (henum.filter _).imp_of_mem ?_
  intro a b ha hb hne heq
  obtain ⟨-, hqa⟩ := List.mem_filter.mp ha
  obtain ⟨-, hqb⟩ := List.mem_filter.mp hb
  apply hne
  have hia : self.findIdx (fun m => decide (m.id = a.2.id)) = a.1 := by simpa using hqa
  have hib : self.findIdx (fun m => decide (m.id = b.2.id)) = b.1 := by simpa using hqb
  have hpred : (fun m : ContentItem => decide (m.id = a.2.id)) =
      (fun m : ContentItem => decide (m.id = b.2.id)) := by
    funext m; rw [heq]
  rw [← hia, ← hib, hpred]

/-- Every member of the deduplicated list is the first element of the
input carrying its id ("first occurrence wins"). -/
theorem dedupById_first_wins {x : ContentItem} {self : List ContentItem}
    (hx : x ∈ dedupById self) :
    self.find? (fun m => decide (m.id = x.id)) = some x := by
  obtain ⟨i, hget, hidx⟩ := mem_dedupById.mp hx
  rw [find?_eq_getElem?_findIdx, hidx, hget]

/-- Every id of the input survives deduplication. -/
theorem dedupById_covers {y : ContentItem} {self : List ContentItem}
    (hy : y ∈ self) :
    ∃ x ∈ dedupById self, x.id = y.id := by
  have hlt : self.findIdx (fun m => decide (m.id = y.id)) < self.length :=
    List.findIdx_lt_length_of_exists ⟨y, hy, by simp⟩
  have hpx : (fun m : ContentItem => decide (m.id = y.id))
      (self.get ⟨self.findIdx (fun m => decide (m.id = y.id)), hlt⟩) = true := by
    simpa using @List.findIdx_getElem _ _ _ hlt
  have hxid : (self.get ⟨self.findIdx (fun m => decide (m.id = y.id)), hlt⟩).id = y.id := by
    simpa using hpx
  refine ⟨self.get ⟨self.findIdx (fun m => decide (m.id = y.id)), hlt⟩, ?_, hxid⟩
  apply mem_dedupById.mpr
  refine ⟨self.findIdx (fun m => decide (m.id = y.id)), ?_, ?_⟩
  · rw [List.getElem?_eq_getElem hlt]
    simp
  · have hpred : (fun m : ContentItem =>
        decide (m.id = (self.get ⟨self.findIdx (fun m => decide (m.id = y.id)), hlt⟩).id)) =
        (fun m : ContentItem => decide (m.id = y.id)) := by
      funext m; rw [hxid]
    rw [hpred]

/-! ### Helper lemmas: the match-score formula -/

/-- Counting the content genres the preference list includes equals the
cardinality of the set intersection, provided the content genre list has
no duplicates. -/
theorem length_filter_mem_eq_card (P G : List Int) (hG : G.Nodup) :
    (G.filter (fun gid => decide (gid ∈ P))).length =
      (P.toFinset ∩ G.toFinset).card := by
  have hnd : (G.filter (fun gid => decide (gid ∈ P))).Nodup := hG.filter _
  rw [← List.toFinset_card_of_nodup hnd, List.toFinset_filter]
  congr 1
  ext a
  simp only [Finset.mem_filter, Finset.mem_inter, List.mem_toFinset,
    decide_eq_true_eq]
  exact and_comm

/-- The spec formula is non-negative. -/
theorem specMatchFormula_nonneg (m p g : ℕ) : 0 ≤ specMatchFormula m p g := by
  unfold specMatchFormula
  positivity

/-- The spec formula is monotone in the intersection size. -/
theorem specMatchFormula_mono (p g : ℕ) {m m' : ℕ} (h : m ≤ m') :
    specMatchFormula m p g ≤ specMatchFormula m' p g := by
  unfold specMatchFormula
  have h1 : (m : ℚ) ≤ (m' : ℚ) := by exact_mod_cast h
  have h7 : (0.7 : ℚ) * m ≤ 0.7 * m' := by nlinarith
  have h3 : (0.3 : ℚ) * m ≤ 0.3 * m' := by nlinarith
  apply add_le_add
  · rcases Nat.eq_zero_or_pos p with hp | hp
    · simp [hp]
    · have hp' : (0 : ℚ) < p := by exact_mod_cast hp
      exact (div_le_div_iff_of_pos_right hp').mpr h7
  · rcases Nat.eq_zero_or_pos g with hg | hg
    · simp [hg]
    · have hg' : (0 : ℚ) < g := by exact_mod_cast hg
      exact (div_le_div_iff_of_pos_right hg').mpr h3

/-- The spec formula is at most 1 when the intersection size is bounded by
both list lengths. -/
theorem specMatchFormula_le_one {m p g : ℕ} (hmp : m ≤ p) (hmg : m ≤ g)
    (hp : 0 < p) (hg : 0 < g) : specMatchFormula m p g ≤ 1 := by
  unfold specMatchFormula
  have h1 : (m : ℚ) / p ≤ 1 := by
    rw [div_le_one (by exact_mod_cast hp)]
    exact_mod_cast hmp
  have h2 : (m : ℚ) / g ≤ 1 := by
    rw [div_le_one (by exact_mod_cast hg)]
    exact_mod_cast hmg
  calc 0.7 * (m : ℚ) / p + 0.3 * (m : ℚ) / g
      = 0.7 * ((m : ℚ) / p) + 0.3 * ((m : ℚ) / g) := by ring
    _ ≤ 0.7 * 1 + 0.3 * 1 := by
        apply add_le_add
        · exact mul_le_mul_of_nonneg_left h1 (by norm_num)
        · exact mul_le_mul_of_nonneg_left h2 (by norm_num)
    _ = 1 := by norm_num

/-- The code's score equals the spec formula at the intersection size. -/
theorem getGenreMatchScore_eq_formula (P G : List Int) (hG : G.Nodup)
    (hp : P ≠ []) (hg : G ≠ []) :
    getGenreMatchScore P G =
      specMatchFormula ((P.toFinset ∩ G.toFinset).card) P.length G.length := by
  simp only [getGenreMatchScore, specMatchFormula]
  rw [if_neg (by simp [List.length_eq_zero, hp, hg])]
  rw [length_filter_mem_eq_card P G hG]
  ring

/-- The intersection size is bounded by the preference count. -/
theorem inter_card_le_left (P G : List Int) (hP : P.Nodup) :
    (P.toFinset ∩ G.toFinset).card ≤ P.length := by
  calc (P.toFinset ∩ G.toFinset).card ≤ P.toFinset.card :=
        Finset.card_le_card Finset.inter_subset_left
    _ = P.length := List.toFinset_card_of_nodup hP

/-- The intersection size is bounded by the content genre count. -/
theorem inter_card_le_right (P G : List Int) (hG : G.Nodup) :
    (P.toFinset ∩ G.toFinset).card ≤ G.length := by
  calc (P.toFinset ∩ G.toFinset).card ≤ G.toFinset.card :=
        Finset.card_le_card Finset.inter_subset_right
    _ = G.length := List.toFinset_card_of_nodup hG

/-! ### Claim C4: the genre match score -/

/-- C4: for a duplicate-free preference set `P` and item genre set `G`,
`getGenreMatchScore` returns 0 when either is empty; otherwise it equals
`0.7 * (|P ∩ G| / |P|) + 0.3 * (|P ∩ G| / |G|)`; it always lies in `[0, 1]`;
and it is monotonically non-decreasing in `|P ∩ G|` holding `|P|` and `|G|`
fixed. -/
theorem genreMatchScore_spec (P G : List Int) (hP : P.Nodup) (hG : G.Nodup) :
    (P = [] ∨ G = [] → getGenreMatchScore P G = 0) ∧
    (P ≠ [] → G ≠ [] →
      getGenreMatchScore P G =
        specMatchFormula ((P.toFinset ∩ G.toFinset).card) P.length G.length) ∧
    0 ≤ getGenreMatchScore P G ∧ getGenreMatchScore P G ≤ 1 ∧
    (∀ P' G' : List Int, P'.Nodup → G'.Nodup → P'.length = P.length →
      G'.length = G.length →
      (P'.toFinset ∩ G'.toFinset).card ≤ (P.toFinset ∩ G.toFinset).card →
      getGenreMatchScore P' G' ≤ getGenreMatchScore P G) := by
  have hzero : ∀ Q H : List Int, Q = [] ∨ H = [] → getGenreMatchScore Q H = 0 := by
    intro Q H h
    simp only [getGenreMatchScore]
    rw [if_pos]
    rcases h with h | h <;> simp [h]
  have hbounds : ∀ Q H : List Int, Q.Nodup → H.Nodup →
      0 ≤ getGenreMatchScore Q H ∧ getGenreMatchScore Q H ≤ 1 := by
    intro Q H hQ hH
    by_cases hq : Q = []
    · rw [hzero Q H (Or.inl hq)]; norm_num
    by_cases hh : H = []
    · rw [hzero Q H (Or.inr hh)]; norm_num
    rw [getGenreMatchScore_eq_formula Q H hH hq hh]
    refine ⟨specMatchFormula_nonneg _ _ _, ?_⟩
    exact specMatchFormula_le_one (inter_card_le_left Q H hQ)
      (inter_card_le_right Q H hH) (List.length_pos.mpr hq) (List.length_pos.mpr hh)
  refine ⟨hzero P G, getGenreMatchScore_eq_formula P G hG, (hbounds P G hP hG).1,
    (hbounds P G hP hG).2, ?_⟩
  intro P' G' hP' hG' hlp hlg hm
  by_cases hp : P = []
  · have hp' : P' = [] := by
      rw [← List.length_eq_zero, hlp, List.length_eq_zero]; exact hp
    rw [hzero P G (Or.inl hp), hzero P' G' (Or.inl hp')]
  by_cases hg : G = []
  · have hg' : G' = [] := by
      rw [← List.length_eq_zero, hlg, List.length_eq_zero]; exact hg
    rw [hzero P G (Or.inr hg), hzero P' G' (Or.inr hg')]
  have hpne' : P' ≠ [] := by
    rw [← List.length_pos, hlp, List.length_pos]; exact hp
  have hgne' : G' ≠ [] := by
    rw [← List.length_pos, hlg, List.length_pos]; exact hg
  rw [getGenreMatchScore_eq_formula P G hG hp hg,
    getGenreMatchScore_eq_formula P' G' hG' hpne' hgne', hlp, hlg]
  exact specMatchFormula_mono _ _ hm

/-- Witness for C4 at the concrete input `P = [28, 12]`, `G = [28, 16]`. -/
theorem genreMatchScore_spec_witness :
    getGenreMatchScore [28, 12] [28, 16] =
      specMatchFormula (([28, 12].toFinset ∩ [28, 16].toFinset).card) 2 2 ∧
    0 ≤ getGenreMatchScore [28, 12] [28, 16] ∧
    getGenreMatchScore [28, 12] [28, 16] ≤ 1 := by
  have h := genreMatchScore_spec [28, 12] [28, 16] (by decide) (by decide)
  exact ⟨h.2.1 (by decide) (by decide), h.2.2.1, h.2.2.2.1⟩

/-! ### Claim C9: completion status -/

/-- C9 counterexample: the code reports `coverage` as a 0–1 fraction, not
a percentage: at three stored preferences it is 1 (not 100), and at one
stored preference it is 1/3 (not 100/3). -/
theorem completionStatus_counterexample :
    (getGenreCompletionStatus [28, 12, 16] []).coverage = 1 ∧
    (getGenreCompletionStatus [28, 12, 16] []).coverage ≠ 100 ∧
    (getGenreCompletionStatus [28] []).coverage = 1 / 3 ∧
    (getGenreCompletionStatus [28] []).coverage ≠ 100 / 3 := by
  refine ⟨?_, ?_, ?_, ?_⟩ <;> norm_num [getGenreCompletionStatus]

/-- C9 (amended): `isComplete` holds iff at least 3 preferences are
stored, and the reported coverage fraction is exactly 1 when the count is
at least 3 and exactly `count / 3` below that. -/
theorem completionStatus_spec (P : List Int) (allGenres : List Genre) :
    ((getGenreCompletionStatus P allGenres).isComplete = true ↔ 3 ≤ P.length) ∧
    (3 ≤ P.length → (getGenreCompletionStatus P allGenres).coverage = 1) ∧
    (P.length < 3 →
      (getGenreCompletionStatus P allGenres).coverage = (P.length : ℚ) / 3) := by
  refine ⟨by simp [getGenreCompletionStatus], ?_, ?_⟩
  · intro h
    simp only [getGenreCompletionStatus]
    rw [min_eq_right]
    rw [le_div_iff₀ (by norm_num : (0 : ℚ) < 3)]
    calc (1 : ℚ) * 3 = 3 := by norm_num
      _ ≤ P.length := by exact_mod_cast h
  · intro h
    simp only [getGenreCompletionStatus]
    rw [min_eq_left]
    rw [div_le_one (by norm_num : (0 : ℚ) < 3)]
    calc (P.length : ℚ) ≤ 3 := by exact_mod_cast Nat.le_of_lt h
      _ = 3 := rfl

/-- Witness for C9 (amended) at three and at one stored preference. -/
theorem completionStatus_spec_witness :
    (getGenreCompletionStatus [28, 12, 16] []).coverage = 1 ∧
    (getGenreCompletionStatus [28] []).coverage = ((1 : ℕ) : ℚ) / 3 := by
  refine ⟨(completionStatus_spec [28, 12, 16] []).2.1 (by decide), ?_⟩
  have h := (completionStatus_spec [28] []).2.2 (by decide)
  simpa using h

/-! ### Claim C10: adding a genre preference -/

/-- C10: `addGenrePreference` leaves the stored list unchanged when the
genre is already a member, and otherwise appends it at the end, preserving
the relative order of all existing entries. -/
theorem addGenrePreference_spec (P : List Int) (g : Int) :
    (g ∈ P → addGenrePreference P g = P) ∧
    (g ∉ P → addGenrePreference P g = P ++ [g]) := by
  constructor
  · intro h; simp [addGenrePreference, h]
  · intro h; simp [addGenrePreference, h]

/-- Witness for C10: adding a present and an absent genre to `[28, 12]`. -/
theorem addGenrePreference_spec_witness :
    addGenrePreference [28, 12] 28 = [28, 12] ∧
    addGenrePreference [28, 12] 16 = [28, 12, 16] :=
  ⟨(addGenrePreference_spec [28, 12] 28).1 (by decide),
   (addGenrePreference_spec [28, 12] 16).2 (by decide)⟩

/-! ### Claim C1: cache fingerprint check -/

/-- An item fingerprinted for genre 28, sitting in the personalized
cache. -/
def c1CachedItem : ContentItem :=
  { id := 101, mediaType := MediaType.movie, vote_average := 7,
    popularity := 50, genre_ids := [28] }

/-- A fresh item the upstream would return for genre 12. -/
def c1FreshItem : ContentItem :=
  { id := 202, mediaType := MediaType.movie, vote_average := 8,
    popularity := 60, genre_ids := [12] }

/-- A state whose personalized cache was populated at time 0 for the genre
set `[28]`. -/
def c1State : RecState :=
  { generalCache := emptyGenreCache,
    personalizedCache :=
      { movies := [c1CachedItem], tvShows := [], lastUpdate := 0,
        userGenres := [28] } }

/-- C1 failing input: one second after the personalized cache was
populated for genre set `[28]`, a request for the different non-empty
genre set `[12]` is served the `[28]`-fingerprinted pool without any
network fetch, even though `genresMatch [12] [28]` is false and fresh
upstream data was available.  The cache-hit path
(simpleRecommendations.ts:59) tests only freshness and non-emptiness, not
the stored fingerprint; `genresMatch` is defined but never called. -/
theorem cacheHit_ignores_fingerprint :
    genresMatch [12] [28] = false ∧
    (getMoviesFromAPI 1000 [12] (Except.ok [[c1FreshItem], [], [], []])
        c1State).fetched = false ∧
    (getMoviesFromAPI 1000 [12] (Except.ok [[c1FreshItem], [], [], []])
        c1State).result = Except.ok [c1CachedItem] := by
  refine ⟨by decide, rfl, rfl⟩

/-! ### Claim C2: behaviour on fetch failure -/

/-- C2 counterexample: with nothing cached and the upstream batch failing,
`getMoviesFromAPI` resolves successfully with the empty list — the error
is not propagated to the caller. -/
theorem fetchFailure_no_propagation_counterexample :
    (getMoviesFromAPI 0 [] (Except.error ()) initState).result =
      Except.ok [] ∧
    (getMoviesFromAPI 0 [] (Except.error ()) initState).result ≠
      Except.error () :=
  ⟨rfl, fun h => nomatch h⟩

/-- C2 (amended): when the upstream batch fails, `getMoviesFromAPI` /
`getTVShowsFromAPI` resolve successfully with whatever list the selected
cache slot currently holds (general slot for an empty genre set,
personalized slot otherwise) — even if expired or recorded for a
different fingerprint, and even when that list is empty because no prior
entry exists; the error is never propagated. -/
theorem fetchFailure_returns_cached_slot (now : Int) (userGenres : List Int)
    (st : RecState) :
    (getMoviesFromAPI now userGenres (Except.error ()) st).result =
      Except.ok ((getCache userGenres st).movies) ∧
    (getTVShowsFromAPI now userGenres (Except.error ()) st).result =
      Except.ok ((getCache userGenres st).tvShows) := by
  constructor
  · simp only [getMoviesFromAPI]
    split <;> rfl
  · simp only [getTVShowsFromAPI]
    split <;> rfl

/-- Witness for C2 (amended) at a concrete input: the populated `[28]`
cache state of claim C1's scenario and the empty initial state. -/
theorem fetchFailure_returns_cached_slot_witness :
    (getMoviesFromAPI 1000 [12] (Except.error ()) c1State).result =
      Except.ok ((getCache [12] c1State).movies) ∧
    (getTVShowsFromAPI 1000 [12] (Except.error ()) c1State).result =
      Except.ok ((getCache [12] c1State).tvShows) :=
  fetchFailure_returns_cached_slot 1000 [12] c1State

/-! ### Claim C8: merged pool deduplication -/

/-- C8: for any list of fetched result pages, the deduplicated merge
contains no two items with the same `(id, mediaType)` pair (the ids are
pairwise distinct outright), every surviving item is the first element of
the merged concatenation carrying its id (first occurrence wins, in the
concatenation order of the calls), and every id of the merge survives. -/
theorem mergedPool_dedup_spec (pages : List (List ContentItem)) :
    (dedupById (mergePages pages)).Pairwise
      (fun a b => (a.id, a.mediaType) ≠ (b.id, b.mediaType)) ∧
    (∀ x ∈ dedupById (mergePages pages),
      (mergePages pages).find? (fun m => decide (m.id = x.id)) = some x) ∧
    (∀ y ∈ mergePages pages,
      ∃ x ∈ dedupById (mergePages pages), x.id = y.id) := by
  refine ⟨(dedupById_pairwise _).imp ?_,
    fun x hx => dedupById_first_wins hx,
    fun y hy => dedupById_covers hy⟩
  intro a b hab heq
  exact hab (congrArg Prod.fst heq)

/-- Witness for C8: a concrete round whose four pages repeat an id. -/
theorem mergedPool_dedup_spec_witness :
    (dedupById (mergePages [[c1FreshItem], [c1FreshItem], [], [c1CachedItem]])).Pairwise
      (fun a b => (a.id, a.mediaType) ≠ (b.id, b.mediaType)) ∧
    (∀ x ∈ dedupById (mergePages [[c1FreshItem], [c1FreshItem], [], [c1CachedItem]]),
      (mergePages [[c1FreshItem], [c1FreshItem], [], [c1CachedItem]]).find?
        (fun m => decide (m.id = x.id)) = some x) ∧
    (∀ y ∈ mergePages [[c1FreshItem], [c1FreshItem], [], [c1CachedItem]],
      ∃ x ∈ dedupById (mergePages [[c1FreshItem], [c1FreshItem], [], [c1CachedItem]]),
        x.id = y.id) :=
  mergedPool_dedup_spec [[c1FreshItem], [c1FreshItem], [], [c1CachedItem]]

/-! ### Helper lemmas: evaluating the pipeline -/

/-- On an empty cache with a failing batch, the movie call resolves with
the empty list and leaves the state untouched. -/
theorem getMoviesFromAPI_error_empty (now : Int) (g : List Int) :
    getMoviesFromAPI now g (Except.error ()) initState =
      { result := Except.ok [], state := initState, fetched := true } := by
  have hc : (getCache g initState).movies = [] := by
    unfold getCache
    split <;> rfl
  simp [getMoviesFromAPI, hc]

/-- On an empty cache with a failing batch, the TV call resolves with the
empty list and leaves the state untouched. -/
theorem getTVShowsFromAPI_error_empty (now : Int) (g : List Int) :
    getTVShowsFromAPI now g (Except.error ()) initState =
      { result := Except.ok [], state := initState, fetched := true } := by
  have hc : (getCache g initState).tvShows = [] := by
    unfold getCache
    split <;> rfl
  simp [getTVShowsFromAPI, hc]

/-- Personalized content of an empty pool is empty. -/
theorem getPersonalizedContent_nil (g : List Int) (lim : Nat) :
    getPersonalizedContent [] g lim = [] := by
  unfold getPersonalizedContent sortByDesc
  split <;> simp

/-- Over an empty pool, the per-genre category step never pushes. -/
theorem genreCategoryStep_nil (acc : List SimpleCategory) (gid : Int) :
    genreCategoryStep [] acc gid = acc := by
  simp [genreCategoryStep, sortByDesc]

/-- Over an empty pool, the whole per-genre fold is the identity. -/
theorem foldl_genreStep_nil (l : List Int) (acc : List SimpleCategory) :
    l.foldl (genreCategoryStep []) acc = acc := by
  induction l generalizing acc with
  | nil => rfl
  | cons x xs ih => rw [List.foldl_cons, genreCategoryStep_nil]; exact ih acc

/-- Personalized categories over empty pools: just "For You" and
"Trending Now", both empty; every per-genre category is skipped. -/
theorem getPersonalizedCategories_nil (g : List Int) :
    getPersonalizedCategories g [] [] =
      [ { id := "for-you", title := "For You",
          subtitle := some "Handpicked based on your preferences", data := [] },
        { id := "trending", title := "Trending Now",
          subtitle := some "Popular content in your favorite genres",
          data := [] } ] := by
  unfold getPersonalizedCategories
  simp only [List.append_nil, List.nil_append, getPersonalizedContent_nil,
    sortByDesc, List.mergeSort_nil, List.take_nil, List.filter_nil,
    List.length_nil, lt_irrefl, if_false]
  rw [foldl_genreStep_nil]
  simp

/-- The cache calls never reject: both branches of the catch resolve. -/
theorem getMoviesFromAPI_ok (now : Int) (g : List Int)
    (fetch : Except Unit (List (List ContentItem))) (st : RecState) :
    ∃ l, (getMoviesFromAPI now g fetch st).result = Except.ok l := by
  by_cases hcond : 0 < (getCache g st).movies.length ∧
      now - (getCache g st).lastUpdate < CACHE_DURATION
  · exact ⟨(getCache g st).movies, by simp [getMoviesFromAPI, hcond]⟩
  · cases fetch with
    | error e => exact ⟨(getCache g st).movies, by simp [getMoviesFromAPI, hcond]⟩
    | ok responses =>
        exact ⟨dedupById (mergePages responses),
          by simp [getMoviesFromAPI, hcond]⟩

/-- The TV cache call never rejects either. -/
theorem getTVShowsFromAPI_ok (now : Int) (g : List Int)
    (fetch : Except Unit (List (List ContentItem))) (st : RecState) :
    ∃ l, (getTVShowsFromAPI now g fetch st).result = Except.ok l := by
  by_cases hcond : 0 < (getCache g st).tvShows.length ∧
      now - (getCache g st).lastUpdate < CACHE_DURATION
  · exact ⟨(getCache g st).tvShows, by simp [getTVShowsFromAPI, hcond]⟩
  · cases fetch with
    | error e => exact ⟨(getCache g st).tvShows, by simp [getTVShowsFromAPI, hcond]⟩
    | ok responses =>
        exact ⟨dedupById (mergePages responses),
          by simp [getTVShowsFromAPI, hcond]⟩

/-- The fallback pipeline always resolves with the fallback categories of
the two pools the cache layer produced. -/
theorem runFallbackCategories_shape (now : Int)
    (mf tf : Except Unit (List (List ContentItem))) (st : RecState) :
    ∃ am atv st2, runFallbackCategories now mf tf st =
      (Except.ok (getFallbackCategories am atv), st2) := by
  obtain ⟨am, ham⟩ := getMoviesFromAPI_ok now [] mf st
  obtain ⟨atv, hatv⟩ :=
    getTVShowsFromAPI_ok now [] tf (getMoviesFromAPI now [] mf st).state
  refine ⟨am, atv,
    (getTVShowsFromAPI now [] tf (getMoviesFromAPI now [] mf st).state).state, ?_⟩
  simp only [runFallbackCategories]
  rw [ham, hatv]

/-! ### Claim C3: total fetch failure with nothing cached -/

/-- C3 counterexample: with no stored preferences, both batches failing
and nothing cached, `getSimpleRecommendations` resolves with the fallback
list — four categories, not the empty category list — and the return
carries no error signal. -/
theorem allFetchesFail_counterexample :
    (getSimpleRecommendations 0 (Except.ok []) (Except.error ())
        (Except.error ()) initState).1 =
      Except.ok (getFallbackCategories [] []) ∧
    (getFallbackCategories [] []).length = 4 ∧
    (getSimpleRecommendations 0 (Except.ok []) (Except.error ())
        (Except.error ()) initState).1 ≠ Except.error () :=
  ⟨rfl, rfl, fun h => nomatch h⟩

/-- C3 (amended): when every upstream fetch fails and nothing is cached,
`getSimpleRecommendations` does not reject: it resolves with a non-empty
fixed category list all of whose item lists are empty (the four fallback
categories in general mode; "For You" and "Trending Now" in personalized
mode), and no separate error signal is produced. -/
theorem allFetchesFail_returns_fallback (now : Int)
    (stored : Except Unit (List Int)) :
    ∃ cats, (getSimpleRecommendations now stored (Except.error ())
        (Except.error ()) initState).1 = Except.ok cats ∧
      cats ≠ [] ∧ ∀ c ∈ cats, c.data = [] := by
  unfold getSimpleRecommendations
  by_cases h : hasUserPreferences stored
  · rw [if_pos (by simp [h])]
    simp only [runPersonalizedCategories, getMoviesFromAPI_error_empty,
      getTVShowsFromAPI_error_empty]
    rw [getPersonalizedCategories_nil]
    refine ⟨_, rfl, by simp, ?_⟩
    intro c hc
    simp only [List.mem_cons, List.not_mem_nil, or_false] at hc
    rcases hc with rfl | rfl <;> rfl
  · rw [if_neg (by simp [h])]
    simp only [runFallbackCategories, getMoviesFromAPI_error_empty,
      getTVShowsFromAPI_error_empty]
    refine ⟨_, rfl, by simp [getFallbackCategories], ?_⟩
    intro c hc
    simp only [getFallbackCategories, sortByDesc, List.mergeSort_nil,
      List.take_nil, List.mem_cons, List.not_mem_nil, or_false] at hc
    rcases hc with rfl | rfl | rfl | rfl <;> rfl

/-- Witness for C3 (amended) at a concrete input: empty stored
preferences, both batches failing, empty cache. -/
theorem allFetchesFail_returns_fallback_witness :
    ∃ cats, (getSimpleRecommendations 0 (Except.ok []) (Except.error ())
        (Except.error ()) initState).1 = Except.ok cats ∧
      cats ≠ [] ∧ ∀ c ∈ cats, c.data = [] :=
  allFetchesFail_returns_fallback 0 (Except.ok [])

/-! ### Claim C6: general-mode categories -/

/-- C6: with fewer than 3 stored preferences, `getSimpleRecommendations`
returns exactly the four categories "Popular Movies", "Top Rated Movies",
"Popular TV Shows", "Top Rated TV Shows" in that order, each holding at
most 20 items, the popular ones pairwise sorted by popularity descending
and the top-rated ones by rating descending. -/
theorem generalMode_categories (now : Int) (stored : Except Unit (List Int))
    (movieFetch tvFetch : Except Unit (List (List ContentItem))) (st : RecState)
    (h : (getGenrePreferences stored).length < 3) :
    ∃ d1 d2 d3 d4,
      (getSimpleRecommendations now stored movieFetch tvFetch st).1 =
        Except.ok
          [ { id := "popular-movies", title := "Popular Movies",
              subtitle := none, data := d1 },
            { id := "top-rated-movies", title := "Top Rated Movies",
              subtitle := none, data := d2 },
            { id := "popular-tv", title := "Popular TV Shows",
              subtitle := none, data := d3 },
            { id := "top-rated-tv", title := "Top Rated TV Shows",
              subtitle := none, data := d4 } ] ∧
      d1.length ≤ 20 ∧ d2.length ≤ 20 ∧ d3.length ≤ 20 ∧ d4.length ≤ 20 ∧
      d1.Pairwise (fun a b => b.popularity ≤ a.popularity) ∧
      d2.Pairwise (fun a b => b.vote_average ≤ a.vote_average) ∧
      d3.Pairwise (fun a b => b.popularity ≤ a.popularity) ∧
      d4.Pairwise (fun a b => b.vote_average ≤ a.vote_average) := by
  have hpref : hasUserPreferences stored = false := by
    simp only [hasUserPreferences, decide_eq_false_iff_not]
    omega
  obtain ⟨am, atv, st2, hio⟩ :=
    runFallbackCategories_shape now movieFetch tvFetch st
  refine ⟨(sortByDesc (fun m => m.popularity) am).take 20,
    (sortByDesc (fun m => m.vote_average)
      (sortByDesc (fun m => m.popularity) am)).take 20,
    (sortByDesc (fun s => s.popularity) atv).take 20,
    (sortByDesc (fun s => s.vote_average)
      (sortByDesc (fun s => s.popularity) atv)).take 20,
    ?_, ?_, ?_, ?_, ?_, ?_, ?_, ?_, ?_⟩
  · unfold getSimpleRecommendations
    rw [if_neg (by simp [hpref]), hio]
    rfl
  · simp [List.length_take]
  · simp [List.length_take]
  · simp [List.length_take]
  · simp [List.length_take]
  · exact (sortByDesc_pairwise _ _).take
  · exact (sortByDesc_pairwise _ _).take
  · exact (sortByDesc_pairwise _ _).take
  · exact (sortByDesc_pairwise _ _).take

/-- Witness for C6 at the concrete input: no stored preferences, failing
batches, empty cache. -/
theorem generalMode_categories_witness :
    ∃ d1 d2 d3 d4,
      (getSimpleRecommendations 0 (Except.ok []) (Except.error ())
          (Except.error ()) initState).1 =
        Except.ok
          [ { id := "popular-movies", title := "Popular Movies",
              subtitle := none, data := d1 },
            { id := "top-rated-movies", title := "Top Rated Movies",
              subtitle := none, data := d2 },
            { id := "popular-tv", title := "Popular TV Shows",
              subtitle := none, data := d3 },
            { id := "top-rated-tv", title := "Top Rated TV Shows",
              subtitle := none, data := d4 } ] ∧
      d1.length ≤ 20 ∧ d2.length ≤ 20 ∧ d3.length ≤ 20 ∧ d4.length ≤ 20 ∧
      d1.Pairwise (fun a b => b.popularity ≤ a.popularity) ∧
      d2.Pairwise (fun a b => b.vote_average ≤ a.vote_average) ∧
      d3.Pairwise (fun a b => b.popularity ≤ a.popularity) ∧
      d4.Pairwise (fun a b => b.vote_average ≤ a.vote_average) :=
  generalMode_categories 0 (Except.ok []) (Except.error ()) (Except.error ())
    initState (by decide)

/-! ### Claim C5: personalized-mode categories -/

/-- The item list of a "Best {GenreName}" category: the (by then
popularity-sorted) combined pool filtered to items containing the genre,
sorted by rating descending, capped at 20. -/
def bestGenreData (genreId : Int) (allMovies allTVShows : List ContentItem) :
    List ContentItem :=
  (sortByDesc (fun c => c.vote_average)
    ((sortByDesc (fun c => c.popularity) (allMovies ++ allTVShows)).filter
      (fun item => decide (genreId ∈ item.genre_ids)))).take 20

/-- The per-genre step pushes its category exactly when the filtered
content is non-empty. -/
theorem genreCategoryStep_pos (allMovies allTVShows : List ContentItem)
    (acc : List SimpleCategory) (gid : Int)
    (h : bestGenreData gid allMovies allTVShows ≠ []) :
    genreCategoryStep (sortByDesc (fun c => c.popularity) (allMovies ++ allTVShows))
        acc gid =
      acc ++ [{ id := "genre-" ++ toString gid, title := "Best " ++ genreName gid,
                subtitle := some ("Top-rated " ++ (genreName gid).toLower ++ " content"),
                data := bestGenreData gid allMovies allTVShows }] := by
  have h' : 0 < (bestGenreData gid allMovies allTVShows).length :=
    List.length_pos.mpr h
  unfold bestGenreData at h' ⊢
  simp only [genreCategoryStep]
  rw [if_pos h']

/-- Members of a "Best" category item list do contain the genre. -/
theorem bestGenreData_mem {gid : Int} {x : ContentItem}
    {allMovies allTVShows : List ContentItem}
    (hx : x ∈ bestGenreData gid allMovies allTVShows) : gid ∈ x.genre_ids := by
  unfold bestGenreData at hx
  have h1 := List.Sublist.mem hx (List.take_sublist _ _)
  have h2 := sortByDesc_mem.mp h1
  have h3 := List.mem_filter.mp h2
  simpa using h3.2

/-- C5: with stored preferences `[28, 12, 16]` and the cache layer
producing pools `allMovies` / `allTVShows`, `getSimpleRecommendations`
runs in personalized mode and returns exactly the categories "For You",
"Trending Now", "Best Action" (genre 28), "Best Adventure" (genre 12) in
that order — genre 16 is excluded — provided both per-genre item lists
are non-empty (they are skipped when empty); each "Best" list is filtered
to items containing its genre, sorted by rating descending and capped at
20. -/
theorem personalizedMode_categories (now : Int) (st : RecState)
    (movieFetch tvFetch : Except Unit (List (List ContentItem)))
    (allMovies allTVShows : List ContentItem)
    (hm : (getMoviesFromAPI now [28, 12, 16] movieFetch st).result =
      Except.ok allMovies)
    (ht : (getTVShowsFromAPI now [28, 12, 16] tvFetch
        (getMoviesFromAPI now [28, 12, 16] movieFetch st).state).result =
      Except.ok allTVShows)
    (h28 : bestGenreData 28 allMovies allTVShows ≠ [])
    (h12 : bestGenreData 12 allMovies allTVShows ≠ []) :
    (getSimpleRecommendations now (Except.ok [28, 12, 16]) movieFetch tvFetch
        st).1 =
      Except.ok (getPersonalizedCategories [28, 12, 16] allMovies allTVShows) ∧
    getPersonalizedCategories [28, 12, 16] allMovies allTVShows =
      [ { id := "for-you", title := "For You",
          subtitle := some "Handpicked based on your preferences",
          data := getPersonalizedContent (allMovies ++ allTVShows) [28, 12, 16] 20 },
        { id := "trending", title := "Trending Now",
          subtitle := some "Popular content in your favorite genres",
          data := (sortByDesc (fun c => c.popularity)
            (allMovies ++ allTVShows)).take 20 },
        { id := "genre-28", title := "Best Action",
          subtitle := some ("Top-rated " ++ ("Action" : String).toLower ++ " content"),
          data := bestGenreData 28 allMovies allTVShows },
        { id := "genre-12", title := "Best Adventure",
          subtitle := some ("Top-rated " ++ ("Adventure" : String).toLower ++ " content"),
          data := bestGenreData 12 allMovies allTVShows } ] ∧
    (getPersonalizedCategories [28, 12, 16] allMovies allTVShows).map
        (fun c => c.title) =
      ["For You", "Trending Now", "Best Action", "Best Adventure"] ∧
    (∀ x ∈ bestGenreData 28 allMovies allTVShows, 28 ∈ x.genre_ids) ∧
    (∀ x ∈ bestGenreData 12 allMovies allTVShows, 12 ∈ x.genre_ids) ∧
    (bestGenreData 28 allMovies allTVShows).length ≤ 20 ∧
    (bestGenreData 12 allMovies allTVShows).length ≤ 20 ∧
    (bestGenreData 28 allMovies allTVShows).Pairwise
      (fun a b => b.vote_average ≤ a.vote_average) ∧
    (bestGenreData 12 allMovies allTVShows).Pairwise
      (fun a b => b.vote_average ≤ a.vote_average) := by
  have hcats : getPersonalizedCategories [28, 12, 16] allMovies allTVShows =
      [ { id := "for-you", title := "For You",
          subtitle := some "Handpicked based on your preferences",
          data := getPersonalizedContent (allMovies ++ allTVShows) [28, 12, 16] 20 },
        { id := "trending", title := "Trending Now",
          subtitle := some "Popular content in your favorite genres",
          data := (sortByDesc (fun c => c.popularity)
            (allMovies ++ allTVShows)).take 20 },
        { id := "genre-28", title := "Best Action",
          subtitle := some ("Top-rated " ++ ("Action" : String).toLower ++ " content"),
          data := bestGenreData 28 allMovies allTVShows },
        { id := "genre-12", title := "Best Adventure",
          subtitle := some ("Top-rated " ++ ("Adventure" : String).toLower ++ " content"),
          data := bestGenreData 12 allMovies allTVShows } ] := by
    simp only [getPersonalizedCategories]
    rw [show List.take 2 ([28, 12, 16] : List Int) = [28, 12] from rfl]
    rw [List.foldl_cons, genreCategoryStep_pos allMovies allTVShows _ _ h28,
      List.foldl_cons, genreCategoryStep_pos allMovies allTVShows _ _ h12,
      List.foldl_nil]
    rfl
  refine ⟨?_, hcats, by rw [hcats]; rfl, fun x hx => bestGenreData_mem hx,
    fun x hx => bestGenreData_mem hx, ?_, ?_, ?_, ?_⟩
  · unfold getSimpleRecommendations
    rw [if_pos (by rfl)]
    simp only [runPersonalizedCategories]
    rw [show getGenrePreferences (Except.ok [28, 12, 16]) = [28, 12, 16] from rfl]
    rw [hm, ht]
  · unfold bestGenreData
    simp [List.length_take]
  · unfold bestGenreData
    simp [List.length_take]
  · exact (sortByDesc_pairwise _ _).take
  · exact (sortByDesc_pairwise _ _).take

/-- A concrete content item carrying genres 28 and 12. -/
def c5Item : ContentItem :=
  { id := 1, mediaType := MediaType.movie, vote_average := 8,
    popularity := 10, genre_ids := [28, 12] }

/-- Witness for C5: the concrete round where the upstream returns a
single action/adventure movie and no TV shows. -/
theorem personalizedMode_categories_witness :
    (getPersonalizedCategories [28, 12, 16] [c5Item] []).map (fun c => c.title) =
      ["For You", "Trending Now", "Best Action", "Best Adventure"] :=
  (personalizedMode_categories 0 initState (Except.ok [[c5Item], [], [], []])
    (Except.ok [[], [], [], []]) [c5Item] [] rfl rfl
    (by simp [bestGenreData, sortByDesc, c5Item])
    (by simp [bestGenreData, sortByDesc, c5Item])).2.2.1

/-! ### Claim C7: search-cache bound and eviction -/

/-- C7: for a search cache whose keys are non-empty (every composite key
contains `_`) and duplicate-free, the update step keeps the cache at no
more than 10 entries, and inserting under a new key when 10 entries are
present evicts exactly the oldest-inserted entry (the head of the
insertion-ordered list), independent of reads. -/
theorem searchCache_bounded_eviction {α : Type} (prev : List (String × α))
    (k : String) (v : α)
    (hkeys : ∀ kv ∈ prev, kv.1 ≠ "")
    (hnodup : (prev.map Prod.fst).Nodup) :
    (prev.length ≤ 10 → (searchCacheInsert prev k v).length ≤ 10) ∧
    (prev.length = 10 → (∀ kv ∈ prev, kv.1 ≠ k) →
      searchCacheInsert prev k v = prev.drop 1 ++ [(k, v)]) := by
  by_cases hpres : prev.any (fun kv => kv.1 == k) = true
  · have hset : jsMapSet prev k v =
        prev.map (fun kv => if kv.1 == k then (k, v) else kv) := by
      unfold jsMapSet
      rw [if_pos hpres]
    have hlen : (jsMapSet prev k v).length = prev.length := by
      rw [hset, List.length_map]
    constructor
    · intro h10
      simp only [searchCacheInsert]
      rw [if_neg (by rw [hlen]; omega)]
      rw [hlen]
      exact h10
    · intro _ hnew
      exfalso
      obtain ⟨kv, hkv, hbeq⟩ := List.any_eq_true.mp hpres
      exact hnew kv hkv (by simpa using hbeq)
  · have hset : jsMapSet prev k v = prev ++ [(k, v)] := by
      unfold jsMapSet
      rw [if_neg hpres]
    have hlen : (jsMapSet prev k v).length = prev.length + 1 := by
      rw [hset]
      simp
    have hknot : ∀ kv ∈ prev, kv.1 ≠ k := by
      intro kv hkv heq
      exact hpres (List.any_eq_true.mpr ⟨kv, hkv, by simp [heq]⟩)
    have hevict : prev.length = 10 →
        searchCacheInsert prev k v = prev.drop 1 ++ [(k, v)] := by
      intro h10
      cases prev with
      | nil => simp at h10
      | cons p rest =>
        have hp1 : p.1 ≠ "" := hkeys p (List.mem_cons_self p rest)
        have hpk : p.1 ≠ k := hknot p (List.mem_cons_self p rest)
        have hpnotin : p.1 ∉ rest.map Prod.fst := by
          rw [List.map_cons, List.nodup_cons] at hnodup
          exact hnodup.1
        have hrest9 : rest.length = 9 := by
          simp only [List.length_cons] at h10
          omega
        simp only [searchCacheInsert]
        rw [hset]
        rw [if_pos (by simp [hrest9])]
        rw [List.cons_append]
        simp only [List.head?_cons]
        rw [if_pos hp1]
        have hfilter : List.filter (fun kv => kv.1 != p.1)
            (p :: (rest ++ [(k, v)])) = rest ++ [(k, v)] := by
          rw [List.filter_cons]
          rw [if_neg (by simp)]
          rw [List.filter_append]
          have h1 : List.filter (fun kv => kv.1 != p.1) rest = rest := by
            apply List.filter_eq_self.mpr
            intro a ha
            simp only [bne_iff_ne]
            intro heq
            exact hpnotin (List.mem_map.mpr ⟨a, ha, heq⟩)
          have h2 : List.filter (fun kv : String × α => kv.1 != p.1) [(k, v)] =
              [(k, v)] := by
            simp only [List.filter_cons, List.filter_nil]
            rw [if_pos (by simp only [bne_iff_ne]; exact fun h => hpk h.symm)]
          rw [h1, h2]
        unfold jsMapDelete
        rw [hfilter]
        rfl
    constructor
    · intro h10
      rcases Nat.lt_or_ge prev.length 10 with hlt | hge
      · simp only [searchCacheInsert]
        rw [if_neg (by rw [hlen]; omega)]
        rw [hlen]
        omega
      · have h10' : prev.length = 10 := le_antisymm h10 hge
        rw [hevict h10']
        simp [List.length_drop, h10']
    · intro h10 _
      exact hevict h10

/-- A concrete full search cache of 10 entries. -/
def searchCacheSample : List (String × Nat) :=
  [("a_", 0), ("b_", 1), ("c_", 2), ("d_", 3), ("e_", 4),
   ("f_", 5), ("g_", 6), ("h_", 7), ("i_", 8), ("j_", 9)]

/-- Witness for C7: inserting an 11th key into the full concrete cache
evicts exactly the first-inserted entry. -/
theorem searchCache_bounded_eviction_witness :
    searchCacheInsert searchCacheSample "z_" 10 =
      searchCacheSample.drop 1 ++ [("z_", 10)] :=
  (searchCache_bounded_eviction searchCacheSample "z_" 10 (by decide)
    (by decide)).2 (by decide) (by decide)

end MovieAdvisor
